import Mathlib

/-!
Verification development for the Bangalore property-finder Flask scraper
(`property_with_ui_flask.py`).  The pipeline's pure core — field extractors,
per-listing record construction of the three site adapters, validation,
deduplication and ranking, and the request handlers' state transitions — is
embedded shallowly: Python strings become `List Char`, floats become `ℚ`
(every price arithmetic step of the program is exact on the decimals it
manipulates), `None` becomes `Option.none`, and a raised exception becomes an
explicit error value.
-/

set_option maxHeartbeats 1000000

/-- Python strings, modelled as lists of characters. -/
abbrev Str := List Char

/-- Shorthand for writing Python string literals. -/
def toL (s : String) : Str := s.toList

/-- Python `str.lower()` on the ASCII texts this program manipulates. -/
def lowerL (s : Str) : Str := s.map Char.toLower

/-- Python `text.replace(c, "")` for a one-character pattern: every
occurrence is removed. -/
def removeChar (c : Char) (s : Str) : Str := s.filter (fun d => d ≠ c)

/-- Python `text.replace("rs", "")`: left-to-right removal of
non-overlapping occurrences. -/
def removeRs : Str → Str
  | [] => []
  | 'r' :: 's' :: rest => removeRs rest
  | c :: rest => c :: removeRs rest

/-- The whitespace class of Python's `str.strip()` and of `\s` in `re`,
restricted to ASCII. -/
def pySpace (c : Char) : Bool :=
  c = ' ' || c = '\t' || c = '\n' || c = '\r' || c = '\x0b' || c = '\x0c'

/-- Python `str.strip()`. -/
def stripL (s : Str) : Str :=
  ((s.dropWhile pySpace).reverse.dropWhile pySpace).reverse

/-- Does the second string start with the first. -/
def beginsWith : Str → Str → Bool
  | [], _ => true
  | _ :: _, [] => false
  | p :: ps, c :: cs => (p = c) && beginsWith ps cs

/-- Python's substring test `pat in text`. -/
def containsSub (p : Str) : Str → Bool
  | [] => beginsWith p []
  | c :: cs => beginsWith p (c :: cs) || containsSub p cs

/-- The token the regex `\d+\.?\d*` matches at a position whose first
character is a digit: maximal digit run, then an optional dot followed by a
maximal digit run. -/
def numTokenAt (s : Str) : Str :=
  let ds := s.takeWhile Char.isDigit
  match s.dropWhile Char.isDigit with
  | '.' :: rest => ds ++ '.' :: rest.takeWhile Char.isDigit
  | _ => ds

/-- `re.findall(r"(\d+\.?\d*)", s)[0]`: the leftmost match of the numeric
token regex, `none` when the text holds no digit. -/
def firstNumToken : Str → Option Str
  | [] => none
  | c :: cs => if c.isDigit then some (numTokenAt (c :: cs)) else firstNumToken cs

/-- Value of a digit string. -/
def digitsVal (s : Str) : ℕ := s.foldl (fun n c => 10 * n + (c.toNat - 48)) 0

/-- Python `float()` applied to a token matched by `\d+\.?\d*`, as an exact
rational. -/
def tokenToRat (t : Str) : ℚ :=
  let w := t.takeWhile Char.isDigit
  match t.dropWhile Char.isDigit with
  | [] => (digitsVal w : ℚ)
  | _ :: frac => (digitsVal w : ℚ) + (digitsVal frac : ℚ) / 10 ^ frac.length

/-- `PropertyFinder.extract_price_numeric` (source lines 134-154): falsy
input gives `None`; the text is lowercased, commas, the rupee sign and "rs"
are removed and the result stripped; the leading numeric token is scaled by
the unit keyword found in the text ("crore"/"cr", then "lakh"/"lac", then
"k"), else taken as is. -/
def extract_price_numeric (priceText : Option Str) : Option ℚ :=
  match priceText with
  | none => none
  | some s =>
    if s = [] then none
    else
      let t := stripL (removeRs (removeChar '₹' (removeChar ',' (lowerL s))))
      match firstNumToken t with
      | none => none
      | some tok =>
        let value := tokenToRat tok
        if containsSub (toL "crore") t || containsSub (toL "cr") t then
          some (value * 10000000)
        else if containsSub (toL "lakh") t || containsSub (toL "lac") t then
          some (value * 100000)
        else if containsSub (toL "k") t then some (value * 1000)
        else some value

/-- The scale factor the specification assigns to a price suffix keyword. -/
def priceScale (t : Str) : ℚ :=
  if containsSub (toL "crore") t || containsSub (toL "cr") t then 10000000
  else if containsSub (toL "lakh") t || containsSub (toL "lac") t then 100000
  else if containsSub (toL "k") t then 1000
  else 1

/-- The specification's description of `parsePrice`: strip currency
symbols/commas case-insensitively, extract the leading numeric token via
`\d+\.?\d*`, scale it by the suffix keyword, and return null on empty or
unparseable input. -/
def parsePriceSpec (priceText : Option Str) : Option ℚ :=
  match priceText with
  | none => none
  | some s =>
    if s = [] then none
    else
      let t := stripL (removeRs (removeChar '₹' (removeChar ',' (lowerL s))))
      (firstNumToken t).map (fun tok => tokenToRat tok * priceScale t)

/-- The match attempt of `re.search(r"(\d+)\s*(?:bhk|bedroom|bh)", ...)` at a
position that starts with a digit: the group is the maximal digit run, then
whitespace is skipped, then one of the alternatives must follow. -/
def bhkAt (s : Str) : Option Str :=
  if beginsWith (toL "bhk") ((s.dropWhile Char.isDigit).dropWhile pySpace)
      || beginsWith (toL "bedroom") ((s.dropWhile Char.isDigit).dropWhile pySpace)
      || beginsWith (toL "bh") ((s.dropWhile Char.isDigit).dropWhile pySpace) then
    some (s.takeWhile Char.isDigit)
  else none

/-- Leftmost-match search of the BHK regex over the lowercased text. -/
def bhkSearch : Str → Option Str
  | [] => none
  | c :: cs =>
    if c.isDigit then
      match bhkAt (c :: cs) with
      | some g => some g
      | none => bhkSearch cs
    else bhkSearch cs

/-- `PropertyFinder.extract_bhk` (source lines 156-161). -/
def extract_bhk (text : Option Str) : Option Str :=
  match text with
  | none => none
  | some s => if s = [] then none else bhkSearch (lowerL s)

/-- The fixed preferred-builder fragments (source lines 59-72). -/
def preferred_builders : List Str :=
  [toL "prestige", toL "sobha", toL "brigade", toL "puravankara", toL "godrej",
   toL "embassy", toL "l&t", toL "l & t", toL "salarpuria", toL "sattva",
   toL "assetz", toL "casagrand"]

/-- `PropertyFinder.check_preferred_builder` (source lines 163-166). -/
def check_preferred_builder (text : Option Str) : Bool :=
  match text with
  | none => false
  | some s =>
    if s = [] then false
    else preferred_builders.any (fun b => containsSub b (lowerL s))

/-- Python `str()` of an optional string: `None` prints as "None" (the
program applies `str` inside f-strings and in the sorting lambda). -/
def pyStrOpt : Option Str → Str
  | none => toL "None"
  | some s => s

/-- The search criteria a run is started with (PropertyFinder fields
`budget_max`, `bedrooms`, `rera_req`, `preferred_only`). -/
structure Criteria where
  budget_max : ℚ
  bedrooms : List Str
  rera_req : Str
  preferred_only : Bool
deriving DecidableEq

/-- One row of `all_data` / one `property_data` dict in its stored, canonical
shape (the 19 columns of source lines 75-95; a missing dict key is `none`). -/
structure PropertyRow where
  source : Option Str
  property : Option Str
  project : Option Str
  builder : Option Str
  preferred_builder : Option Str
  bhk : Option Str
  rating : Option Str
  places_nearby : Option Str
  price : Option Str
  price_numeric : Option ℚ
  price_per_sqft : Option Str
  area : Option Str
  area_sqft : Option Str
  area_sqm : Option Str
  description : Option Str
  posted_date : Option Str
  posted_by : Option Str
  rera : Option Str
  property_url : Option Str
deriving DecidableEq

/-- Python truthiness of an optional float (`None` and `0.0` are falsy). -/
def pyTruthyOptQ : Option ℚ → Bool
  | none => false
  | some v => decide (v ≠ 0)

/-- Python truthiness of an optional string (`None` and `""` are falsy). -/
def pyTruthyOptS : Option Str → Bool
  | none => false
  | some s => decide (s ≠ [])

/-- `PropertyFinder.validate_property` (source lines 183-206): budget
ceiling, BHK membership and preferred-builder checks; the RERA branch is
commented out in the source and absent here. -/
def validate_property (c : Criteria) (pd : PropertyRow) : Bool :=
  if decide (c.budget_max ≠ 0) && pyTruthyOptQ pd.price_numeric
      && decide (pd.price_numeric.getD 0 > c.budget_max) then false
  else if pyTruthyOptS pd.bhk && !(decide (pd.bhk.getD [] ∈ c.bedrooms)) then false
  else if c.preferred_only && decide (pd.preferred_builder ≠ some (toL "⭐ YES")) then
    false
  else true

/-- A Python exception value. -/
inductive PyErr where
  | attributeError (msg : String)
  | typeError (msg : String)
deriving DecidableEq

/-- The sub-fragment values the 99acres selectors yield for one listing box
(`scrape_99acres`, source lines 292-414): each field is the stripped text of
the matched element, `none` when no selector matched. -/
structure Frag99 where
  title : Option Str
  project : Option Str
  price : Option Str
  area : Option Str
  desc : Option Str
  reraFound : Bool
  href : Option Str
deriving DecidableEq

/-- The BHK classification of `scrape_99acres` (source lines 382-398): a
substring scan of title plus description that only ever yields "1".."4" or
"Unknown". -/
def bhk99 (property description : Str) : Str :=
  let t := lowerL (property ++ toL " " ++ description)
  if containsSub (toL "1 bhk") t || containsSub (toL "1bhk") t then toL "1"
  else if containsSub (toL "2 bhk") t || containsSub (toL "2bhk") t then toL "2"
  else if containsSub (toL "3 bhk") t || containsSub (toL "3bhk") t then toL "3"
  else if containsSub (toL "4 bhk") t || containsSub (toL "4bhk") t then toL "4"
  else toL "Unknown"

/-- The body of the per-listing `try` block of `scrape_99acres` (source lines
295-410) against the accumulated rows.  The budget filter's `continue` (lines
333-335) leaves the rows unchanged.  Otherwise the preferred-builder line
(lines 403-407) evaluates `self.is_preferred_builder`, a method that does not
exist — an `AttributeError` — whenever the builder text is truthy; and when it
is falsy, the call `self.add_property(property_data)` (line 409) passes one
argument to a method that requires `source` and `property_data` — a
`TypeError` raised before any row is appended. -/
def listing99Step (c : Criteria) (f : Frag99) (st : List PropertyRow) :
    Except PyErr (List PropertyRow) :=
  let property := f.title.getD (toL "Unknown Property")
  let builder := f.project
  let priceNumeric := extract_price_numeric f.price
  if decide (c.budget_max ≠ 0) && pyTruthyOptQ priceNumeric
      && decide (priceNumeric.getD 0 > c.budget_max) then
    .ok st
  else
    let description := f.desc.getD property
    let _bhkFound := bhk99 property description
    if pyTruthyOptS builder then
      .error (.attributeError "PropertyFinder object has no attribute is_preferred_builder")
    else
      .error (.typeError "add_property missing 1 required positional argument")

/-- One listing of `scrape_99acres` with its enclosing per-listing exception
handler (source lines 412-414): the raised error is swallowed and scraping
continues. -/
def process99Listing (c : Criteria) (f : Frag99) (st : List PropertyRow) :
    List PropertyRow :=
  match listing99Step c f st with
  | .ok st2 => st2
  | .error _ => st

/-- All listing boxes of one 99acres results page. -/
def scrape99Page (c : Criteria) (st : List PropertyRow) (frags : List Frag99) :
    List PropertyRow :=
  frags.foldl (fun s f => process99Listing c f s) st

/-- `PropertyFinder.scrape_99acres` over the fetched pages (the per-page
exception handler of lines 416-417 also only swallows errors). -/
def scrape_99acres (c : Criteria) (pages : List (List Frag99))
    (st : List PropertyRow) : List PropertyRow :=
  pages.foldl (scrape99Page c) st

/-- The sub-fragment values the MagicBricks selectors yield for one
`mb-srp__card` (source lines 459-591): stripped element texts, the RERA text
search outcome, and the href list the link fallback logic walks. -/
structure FragMB where
  title : Option Str
  project : Option Str
  price : Option Str
  area : Option Str
  reraFound : Bool
  links : List Str
deriving DecidableEq

/-- The link-selection loop of `scrape_magicbricks` (source lines 549-561):
first href containing "property-detail" or "/buy/", else the first href. -/
def mbPickLink (links : List Str) : Option Str :=
  match links.find? (fun l =>
      containsSub (toL "property-detail") l || containsSub (toL "/buy/") l) with
  | some l => some l
  | none => links.head?

/-- The URL resolution of `scrape_magicbricks` (source lines 563-571):
absolute hrefs pass through, others are prefixed with the site origin, falsy
ones give `None`. -/
def mbResolveUrl (link : Option Str) : Option Str :=
  match link with
  | none => none
  | some l =>
    if decide (l ≠ []) && beginsWith (toL "http") l then some l
    else if decide (l ≠ []) then some (toL "https://www.magicbricks.com" ++ l)
    else none

/-- The `property_data` dict one MagicBricks card is mapped to (source lines
463-591), in stored row shape.  `add_property` stores
`property_data.get("source")`, a key this adapter never sets, so the stored
`source` is `none`. -/
def mbRecord (f : FragMB) : PropertyRow :=
  let builder := f.project
  { source := none
    property := f.title
    project := f.project
    builder := builder
    preferred_builder :=
      some (if check_preferred_builder builder then toL "⭐ YES" else toL "No")
    bhk := extract_bhk (some (pyStrOpt f.title))
    rating := none
    places_nearby := none
    price := f.price
    price_numeric := extract_price_numeric f.price
    price_per_sqft := none
    area := f.area
    area_sqft := f.area
    area_sqm := none
    description := none
    posted_date := none
    posted_by := none
    rera := some (if f.reraFound then toL "Yes" else toL "Not Mentioned")
    property_url := mbResolveUrl (mbPickLink f.links) }

/-- One MagicBricks listing (source lines 593-595): the row is appended
exactly when `validate_property` accepts it. -/
def mbStep (c : Criteria) (f : FragMB) (st : List PropertyRow) :
    List PropertyRow :=
  if validate_property c (mbRecord f) then st ++ [mbRecord f] else st

/-- The sub-fragment values the Housing.com selectors yield for one card
(source lines 651-744). -/
structure FragH where
  title : Option Str
  subtitle : Option Str
  price : Option Str
  area : Option Str
  reraFound : Bool
  titleHref : Option Str
deriving DecidableEq

/-- The URL resolution of `scrape_housing` (source lines 717-730): a falsy
href gives `None`, a path beginning "/" is resolved against the site
origin. -/
def housingResolveUrl (href : Option Str) : Option Str :=
  match href with
  | none => none
  | some h =>
    if decide (h ≠ []) then
      some (if beginsWith (toL "/") h then toL "https://housing.com" ++ h else h)
    else none

/-- The `property_data` dict one Housing.com card is mapped to (source lines
655-740), in stored row shape; as for MagicBricks, no "source" key is set. -/
def housingRecord (f : FragH) : PropertyRow :=
  let builder := f.subtitle
  { source := none
    property := f.title
    project := builder
    builder := builder
    preferred_builder :=
      some (if check_preferred_builder builder then toL "⭐ YES" else toL "No")
    bhk := extract_bhk (some (pyStrOpt f.title))
    rating := none
    places_nearby := none
    price := f.price
    price_numeric := extract_price_numeric f.price
    price_per_sqft := none
    area := f.area
    area_sqft := f.area
    area_sqm := none
    description := none
    posted_date := none
    posted_by := none
    rera := some (if f.reraFound then toL "Yes" else toL "Not Mentioned")
    property_url := housingResolveUrl f.titleHref }

/-- One Housing.com listing (source lines 742-744). -/
def housingStep (c : Criteria) (f : FragH) (st : List PropertyRow) :
    List PropertyRow :=
  if validate_property c (housingRecord f) then st ++ [housingRecord f] else st

/-- The deduplication key of `get_results_df`:
`drop_duplicates(subset=["Property", "Price"])` (source line 781); pandas
treats two missing values as equal, as `Option` equality does. -/
def dedupKey (r : PropertyRow) : Option Str × Option Str := (r.property, r.price)

/-- Worker for keep-first deduplication: an element whose key was already
seen is dropped, otherwise it is kept and its key recorded. -/
def dedupFirstAux {α κ : Type} [DecidableEq κ] (f : α → κ) : List κ → List α → List α
  | _, [] => []
  | seen, x :: xs =>
    if f x ∈ seen then dedupFirstAux f seen xs
    else x :: dedupFirstAux f (f x :: seen) xs

/-- Keep-first deduplication by a key, the semantics of pandas
`drop_duplicates(..., keep="first")`. -/
def dedupFirst {α κ : Type} [DecidableEq κ] (f : α → κ) (l : List α) : List α :=
  dedupFirstAux f [] l

/-- The primary sort key of `get_results_df` (source lines 782-784):
`0 if "⭐" in str(x) else 1` over the stored preferred-builder value. -/
def sortPreferred (r : PropertyRow) : ℕ :=
  if containsSub (toL "⭐") (pyStrOpt r.preferred_builder) then 0 else 1

/-- Rank separating present prices from missing ones: pandas sorts NaN keys
last within each group (`na_position="last"`). -/
def priceNoneRank (r : PropertyRow) : ℕ := if r.price_numeric.isNone then 1 else 0

/-- The numeric value the secondary sort compares (only meaningful when the
price is present). -/
def priceVal (r : PropertyRow) : ℚ := r.price_numeric.getD 0

/-- The composite sort key of one row, without the tiebreaking input
position: preferred tier, then missing-price rank, then price. -/
def sKey3 (r : PropertyRow) : ℕ × ℕ × ℚ := (sortPreferred r, priceNoneRank r, priceVal r)

/-- Lexicographic comparison of composite sort keys. -/
def key3Le (a b : ℕ × ℕ × ℚ) : Bool :=
  if a.1 < b.1 then true
  else if b.1 < a.1 then false
  else if a.2.1 < b.2.1 then true
  else if b.2.1 < a.2.1 then false
  else decide (a.2.2 ≤ b.2.2)

/-- The full comparison `np.lexsort` orders rows by: composite key first,
ties broken by original position — which is exactly what makes the
multi-column pandas sort stable. -/
def rowLe (p q : ℕ × PropertyRow) : Prop :=
  (if sKey3 p.2 = sKey3 q.2 then decide (p.1 ≤ q.1) else key3Le (sKey3 p.2) (sKey3 q.2)) = true

instance : DecidableRel rowLe := fun p q => by unfold rowLe; infer_instance


/-- The stable multi-key sort of `get_results_df` (source lines 785-787):
pandas sorts a column list via `np.lexsort`, which is stable, so the result
is the unique order by composite key with ties in original position order —
here obtained by sorting the position-tagged rows by `rowLe`. -/
def aggEnum (l : List PropertyRow) : List (ℕ × PropertyRow) :=
  List.insertionSort rowLe (dedupFirst dedupKey l).enum

/-- `PropertyFinder.get_results_df` (source lines 778-789): a non-empty frame
is deduplicated by (Property, Price) keeping the first occurrence, then
stable-sorted by (Sort_Preferred, Price Numeric) ascending, missing prices
last. -/
def get_results_df (l : List PropertyRow) : List PropertyRow :=
  if l.isEmpty then l else (aggEnum l).map Prod.snd

/-- A full run with only 99acres enabled (`scrape_all` with
`sites = {"99acres": True, others False}` followed by the final
`get_results_df`, source lines 759-776 and 836-840). -/
def run99acresOnly (c : Criteria) (pages : List (List Frag99)) : List PropertyRow :=
  get_results_df (scrape_99acres c pages [])

/-- `start_scraping`'s budget interpretation (source line 809):
`int(data.get("budget", 80)) * 100000` — lakhs to absolute currency units. -/
def startBudgetMax (budget : Option ℤ) : ℤ := budget.getD 80 * 100000

/-- Decimal digits of a number, for the f-string messages. -/
def natToStr (n : ℕ) : Str := (toString n).toList

/-- The fields of the global `scraping_status` dict (source lines 29-36). -/
structure ScrapeStatus where
  running : Bool
  progress : ℕ
  message : Str
  current_site : Str
  properties_found : ℕ
  results : Option (List PropertyRow)
deriving DecidableEq

/-- What `/import_csv` receives: no "file" part, a file with an empty
filename, or an uploaded file together with the outcome of parsing it
(`pd.read_csv` either yields rows or raises). -/
inductive CsvUpload where
  | missing
  | emptyName
  | file (parsed : Except Str (List PropertyRow))

/-- A JSON response of the import route: the success payload or an error
with its HTTP status code. -/
inductive RouteResp where
  | success (count : ℕ) (results : List PropertyRow)
  | errorResp (code : ℕ) (msg : Str)
deriving DecidableEq

/-- `import_csv_route` (source lines 892-919): guards for a missing or
unnamed upload; then only a successful parse replaces
`scraping_status["results"]` (and the count and message), while a parse
error leaves the whole state untouched and returns a 500 carrying the
exception text. -/
def import_csv_route (st : ScrapeStatus) (up : CsvUpload) :
    ScrapeStatus × RouteResp :=
  match up with
  | .missing => (st, .errorResp 400 (toL "No file uploaded"))
  | .emptyName => (st, .errorResp 400 (toL "No file selected"))
  | .file (.error e) => (st, .errorResp 500 (toL "Failed to parse CSV: " ++ e))
  | .file (.ok recs) =>
    ({ st with
        results := some recs
        properties_found := recs.length
        message := toL "Imported " ++ natToStr recs.length ++ toL " properties from CSV" },
     .success recs.length recs)

/-- Outcome of the `/export` route: an early JSON error response, or an
exception escaping the handler (which Flask surfaces as a 500). -/
inductive ExportOutcome where
  | clientError (code : ℕ) (msg : Str)
  | raised (err : Str)
deriving DecidableEq

/-- `export_csv` (source lines 874-889): falsy results give a 400; otherwise
the next statement `si = io.StringIO()` evaluates the name `io`, which the
module never imports, so a `NameError` is raised — the header- and
row-writing code sits after the `return` (lines 921-935, unreachable) and
`output`/`filename` are likewise unbound at line 887's `return send_file`. -/
def export_csv (results : Option (List PropertyRow)) : ExportOutcome :=
  match results with
  | none => .clientError 400 (toL "No results to export")
  | some [] => .clientError 400 (toL "No results to export")
  | some (_ :: _) => .raised (toL "NameError: name io is not defined")

/-- A row with every stored field missing, for concrete examples. -/
def emptyRow : PropertyRow :=
  { source := none, property := none, project := none, builder := none,
    preferred_builder := none, bhk := none, rating := none,
    places_nearby := none, price := none, price_numeric := none,
    price_per_sqft := none, area := none, area_sqft := none, area_sqm := none,
    description := none, posted_date := none, posted_by := none, rera := none,
    property_url := none }

/-- The default search criteria of a run (80 lakhs, 2 or 3 BHK, RERA "Yes",
all builders — source lines 40-56 and 805-813). -/
def defaultCriteria : Criteria :=
  { budget_max := 8000000, bedrooms := [toL "2", toL "3"],
    rera_req := toL "Yes", preferred_only := false }

/-- The spec's aggregator-ordering example, row 1: preferred = false,
priceNumeric = 5000000. -/
def exRowNP : PropertyRow :=
  { emptyRow with
    property := some (toL "A")
    preferred_builder := some (toL "No")
    price_numeric := some 5000000 }

/-- The spec's aggregator-ordering example, row 2: preferred = true,
priceNumeric = 9000000. -/
def exRowP9 : PropertyRow :=
  { emptyRow with
    property := some (toL "B")
    preferred_builder := some (toL "⭐ YES")
    price_numeric := some 9000000 }

/-- The spec's aggregator-ordering example, row 3: preferred = true,
priceNumeric = 3000000. -/
def exRowP3 : PropertyRow :=
  { emptyRow with
    property := some (toL "C")
    preferred_builder := some (toL "⭐ YES")
    price_numeric := some 3000000 }

/-- Dedup example: a MagicBricks-tagged row. -/
def exDupMB : PropertyRow :=
  { emptyRow with
    source := some (toL "MagicBricks")
    property := some (toL "Flat X")
    price := some (toL "₹50 Lac") }

/-- Dedup example: a Housing.com-tagged row with the same (title, priceText)
key. -/
def exDupH : PropertyRow :=
  { emptyRow with
    source := some (toL "Housing.com")
    property := some (toL "Flat X")
    price := some (toL "₹50 Lac") }

/-- A MagicBricks card whose title carries no BHK pattern. -/
def mbFragStudio : FragMB :=
  { title := some (toL "Studio Apartment")
    project := none
    price := none
    area := none
    reraFound := false
    links := [] }

theorem key3Le_iff (a b : ℕ × ℕ × ℚ) :
    key3Le a b = true ↔
      a.1 < b.1 ∨ a.1 = b.1 ∧ (a.2.1 < b.2.1 ∨ a.2.1 = b.2.1 ∧ a.2.2 ≤ b.2.2) := by
  unfold key3Le
  by_cases h1 : a.1 < b.1
  · simp [h1]
  · by_cases h2 : b.1 < a.1
    · have h5 : ¬ a.1 = b.1 := by omega
      simp [h1, h2, h5]
    · have e1 : a.1 = b.1 := by omega
      by_cases h3 : a.2.1 < b.2.1
      · simp [h1, h2, h3, e1]
      · by_cases h4 : b.2.1 < a.2.1
        · have h5 : ¬ a.2.1 = b.2.1 := by omega
          simp [h1, h2, h3, h4, e1, h5]
        · have e2 : a.2.1 = b.2.1 := by omega
          simp [h1, h2, h3, h4, e1, e2]

theorem key3Le_refl (a : ℕ × ℕ × ℚ) : key3Le a a = true := by
  rw [key3Le_iff]
  exact Or.inr ⟨rfl, Or.inr ⟨rfl, le_refl _⟩⟩

theorem key3Le_total (a b : ℕ × ℕ × ℚ) : key3Le a b = true ∨ key3Le b a = true := by
  rw [key3Le_iff, key3Le_iff]
  rcases lt_trichotomy a.1 b.1 with h | h | h
  · exact Or.inl (Or.inl h)
  · rcases lt_trichotomy a.2.1 b.2.1 with g | g | g
    · exact Or.inl (Or.inr ⟨h, Or.inl g⟩)
    · rcases le_total a.2.2 b.2.2 with k | k
      · exact Or.inl (Or.inr ⟨h, Or.inr ⟨g, k⟩⟩)
      · exact Or.inr (Or.inr ⟨h.symm, Or.inr ⟨g.symm, k⟩⟩)
    · exact Or.inr (Or.inr ⟨h.symm, Or.inl g⟩)
  · exact Or.inr (Or.inl h)

theorem key3Le_trans {a b c : ℕ × ℕ × ℚ} (hab : key3Le a b = true)
    (hbc : key3Le b c = true) : key3Le a c = true := by
  rw [key3Le_iff] at *
  rcases hab with h1 | ⟨e1, h1⟩ <;> rcases hbc with h2 | ⟨e2, h2⟩
  · exact Or.inl (lt_trans h1 h2)
  · exact Or.inl (e2 ▸ h1)
  · exact Or.inl (e1 ▸ h2)
  · refine Or.inr ⟨e1.trans e2, ?_⟩
    rcases h1 with g1 | ⟨f1, g1⟩ <;> rcases h2 with g2 | ⟨f2, g2⟩
    · exact Or.inl (lt_trans g1 g2)
    · exact Or.inl (f2 ▸ g1)
    · exact Or.inl (f1 ▸ g2)
    · exact Or.inr ⟨f1.trans f2, le_trans g1 g2⟩

theorem key3Le_antisymm {a b : ℕ × ℕ × ℚ} (hab : key3Le a b = true)
    (hba : key3Le b a = true) : a = b := by
  rw [key3Le_iff] at *
  rcases hab with h | ⟨e, h | ⟨f, h⟩⟩ <;> rcases hba with h2 | ⟨e2, h2 | ⟨f2, h2⟩⟩ <;>
    first
      | omega
      | exact Prod.ext e (Prod.ext f (le_antisymm h h2))

theorem rowLe_total (p q : ℕ × PropertyRow) : rowLe p q ∨ rowLe q p := by
  unfold rowLe
  by_cases e : sKey3 p.2 = sKey3 q.2
  · rcases Nat.le_total p.1 q.1 with h | h
    · left; rw [if_pos e]; simpa using h
    · right; rw [if_pos e.symm]; simpa using h
  · have e2 : ¬ sKey3 q.2 = sKey3 p.2 := fun h => e h.symm
    rcases key3Le_total (sKey3 p.2) (sKey3 q.2) with h | h
    · left; rw [if_neg e]; exact h
    · right; rw [if_neg e2]; exact h

theorem rowLe_trans {p q v : ℕ × PropertyRow} (hpq : rowLe p q) (hqv : rowLe q v) :
    rowLe p v := by
  unfold rowLe at *
  by_cases e1 : sKey3 p.2 = sKey3 q.2 <;> by_cases e2 : sKey3 q.2 = sKey3 v.2
  · have e3 : sKey3 p.2 = sKey3 v.2 := e1.trans e2
    rw [if_pos e1] at hpq
    rw [if_pos e2] at hqv
    rw [if_pos e3]
    simp only [decide_eq_true_eq] at *
    omega
  · have e3 : ¬ sKey3 p.2 = sKey3 v.2 := fun h => e2 (by rw [← e1]; exact h)
    rw [if_pos e1] at hpq
    rw [if_neg e2] at hqv
    rw [if_neg e3, e1]
    exact hqv
  · have e3 : ¬ sKey3 p.2 = sKey3 v.2 := fun h => e1 (by rw [h, e2])
    rw [if_neg e1] at hpq
    rw [if_pos e2] at hqv
    rw [if_neg e3, ← e2]
    exact hpq
  · rw [if_neg e1] at hpq
    rw [if_neg e2] at hqv
    by_cases e3 : sKey3 p.2 = sKey3 v.2
    · rw [← e3] at hqv
      exact absurd (key3Le_antisymm hpq hqv) e1
    · rw [if_neg e3]
      exact key3Le_trans hpq hqv

theorem key3Le_of_rowLe {p q : ℕ × PropertyRow} (h : rowLe p q) :
    key3Le (sKey3 p.2) (sKey3 q.2) = true := by
  unfold rowLe at h
  by_cases e : sKey3 p.2 = sKey3 q.2
  · rw [e]; exact key3Le_refl _
  · rw [if_neg e] at h; exact h

theorem fst_ge_of_mem_enumFrom {α : Type} {q : ℕ × α} :
    ∀ {n : ℕ} {l : List α}, q ∈ l.enumFrom n → n ≤ q.1 := by
  intro n l
  induction l generalizing n with
  | nil => intro h; simp at h
  | cons x xs ih =>
    intro h
    rw [List.enumFrom_cons] at h
    rcases List.mem_cons.mp h with h | h
    · subst h; exact le_refl _
    · exact Nat.le_of_succ_le (ih h)

theorem pairwise_fst_lt_enumFrom {α : Type} :
    ∀ (n : ℕ) (l : List α), (l.enumFrom n).Pairwise (fun p q => p.1 < q.1) := by
  intro n l
  induction l generalizing n with
  | nil => exact List.Pairwise.nil
  | cons x xs ih =>
    rw [List.enumFrom_cons]
    refine List.Pairwise.cons ?_ (ih (n + 1))
    intro q hq
    exact Nat.lt_of_succ_le (fst_ge_of_mem_enumFrom hq)

theorem mem_of_mem_dedupFirstAux {α κ : Type} [DecidableEq κ] {f : α → κ} :
    ∀ {l : List α} {seen : List κ} {a : α}, a ∈ dedupFirstAux f seen l → a ∈ l := by
  intro l
  induction l with
  | nil => intro seen a ha; simp [dedupFirstAux] at ha
  | cons x xs ih =>
    intro seen a ha
    simp only [dedupFirstAux] at ha
    by_cases hx : f x ∈ seen
    · rw [if_pos hx] at ha
      exact List.mem_cons_of_mem _ (ih ha)
    · rw [if_neg hx] at ha
      rcases List.mem_cons.mp ha with h | h
      · exact h ▸ List.mem_cons_self _ _
      · exact List.mem_cons_of_mem _ (ih h)

theorem mem_of_mem_dedupFirst {α κ : Type} [DecidableEq κ] {f : α → κ}
    {l : List α} {a : α} (h : a ∈ dedupFirst f l) : a ∈ l :=
  mem_of_mem_dedupFirstAux h

theorem dedupFirstAux_filter {α κ : Type} [DecidableEq κ] (f : α → κ) (k : κ) :
    ∀ (l : List α) (seen : List κ),
      (dedupFirstAux f seen l).filter (fun a => decide (f a = k))
        = if k ∈ seen then [] else (l.filter (fun a => decide (f a = k))).take 1 := by
  intro l
  induction l with
  | nil =>
    intro seen
    by_cases h : k ∈ seen <;> simp [dedupFirstAux, h]
  | cons x xs ih =>
    intro seen
    simp only [dedupFirstAux]
    by_cases hx : f x ∈ seen
    · rw [if_pos hx, ih seen]
      by_cases hk : k ∈ seen
      · simp [hk]
      · have hxk : ¬ f x = k := fun e => hk (e ▸ hx)
        rw [if_neg hk, if_neg hk, List.filter_cons_of_neg (by simpa using hxk)]
    · rw [if_neg hx]
      by_cases hxk : f x = k
      · have hk : ¬ k ∈ seen := fun h => hx (hxk ▸ h)
        rw [if_neg hk, List.filter_cons_of_pos (by simpa using hxk),
          List.filter_cons_of_pos (by simpa using hxk), ih (f x :: seen),
          if_pos (List.mem_cons.mpr (Or.inl hxk.symm))]
        simp [List.take]
      · rw [List.filter_cons_of_neg (by simpa using hxk), ih (f x :: seen)]
        by_cases hk : k ∈ seen
        · rw [if_pos (List.mem_cons.mpr (Or.inr hk)), if_pos hk]
        · have hnot : ¬ k ∈ f x :: seen := by
            intro h
            rcases List.mem_cons.mp h with h | h
            · exact hxk h.symm
            · exact hk h
          rw [if_neg hnot, if_neg hk, List.filter_cons_of_neg (by simpa using hxk)]

theorem dedupFirst_filter_key {α κ : Type} [DecidableEq κ] (f : α → κ)
    (l : List α) (k : κ) :
    (dedupFirst f l).filter (fun a => decide (f a = k))
      = (l.filter (fun a => decide (f a = k))).take 1 := by
  unfold dedupFirst
  rw [dedupFirstAux_filter, if_neg (List.not_mem_nil k)]

theorem validate_false_iff (c : Criteria) (pd : PropertyRow) :
    validate_property c pd = false ↔
      (∃ v, pd.price_numeric = some v ∧ c.budget_max ≠ 0 ∧ v ≠ 0 ∧ v > c.budget_max)
      ∨ (∃ s, pd.bhk = some s ∧ s ≠ [] ∧ s ∉ c.bedrooms)
      ∨ (c.preferred_only = true ∧ pd.preferred_builder ≠ some (toL "⭐ YES")) := by
  have h1 : (decide (c.budget_max ≠ 0) && pyTruthyOptQ pd.price_numeric
        && decide (pd.price_numeric.getD 0 > c.budget_max)) = true ↔
      (∃ v, pd.price_numeric = some v ∧ c.budget_max ≠ 0 ∧ v ≠ 0 ∧ v > c.budget_max) := by
    cases hp : pd.price_numeric with
    | none => simp [pyTruthyOptQ]
    | some v =>
      simp only [pyTruthyOptQ, Option.getD, Bool.and_eq_true, decide_eq_true_eq]
      constructor
      · rintro ⟨⟨hb, hv⟩, hgt⟩
        exact ⟨v, rfl, hb, hv, hgt⟩
      · rintro ⟨w, hw, hb, hv, hgt⟩
        cases hw
        exact ⟨⟨hb, hv⟩, hgt⟩
  have h2 : (pyTruthyOptS pd.bhk && !(decide (pd.bhk.getD [] ∈ c.bedrooms))) = true ↔
      (∃ s, pd.bhk = some s ∧ s ≠ [] ∧ s ∉ c.bedrooms) := by
    cases hb : pd.bhk with
    | none => simp [pyTruthyOptS]
    | some s =>
      simp only [pyTruthyOptS, Option.getD, Bool.and_eq_true, Bool.not_eq_true',
        decide_eq_true_eq, decide_eq_false_iff_not]
      constructor
      · rintro ⟨hs, hmem⟩
        exact ⟨s, rfl, hs, hmem⟩
      · rintro ⟨w, hw, hs, hmem⟩
        cases hw
        exact ⟨hs, hmem⟩
  have h3 : (c.preferred_only && decide (pd.preferred_builder ≠ some (toL "⭐ YES"))) = true ↔
      (c.preferred_only = true ∧ pd.preferred_builder ≠ some (toL "⭐ YES")) := by
    simp
  have chain : ∀ b1 b2 b3 : Bool,
      (if b1 then false else if b2 then false else if b3 then false else true) = false ↔
        (b1 = true ∨ b2 = true ∨ b3 = true) := by
    intro b1 b2 b3
    cases b1 <;> cases b2 <;> cases b3 <;> simp
  unfold validate_property
  rw [chain, h1, h2, h3]

theorem bhkSearch_shape : ∀ {l g : Str}, bhkSearch l = some g →
    g ≠ [] ∧ g.all Char.isDigit = true := by
  intro l
  induction l with
  | nil => intro g h; simp [bhkSearch] at h
  | cons c cs ih =>
    intro g h
    by_cases hd : c.isDigit
    · rw [bhkSearch, if_pos hd] at h
      cases hb : bhkAt (c :: cs) with
      | none => rw [hb] at h; exact ih h
      | some g2 =>
        rw [hb] at h
        simp only [Option.some.injEq] at h
        unfold bhkAt at hb
        split_ifs at hb with hcond
        · have hg2 : g2 = (c :: cs).takeWhile Char.isDigit := by
            simpa using hb.symm
          have hg : g = g2 := by simpa using h.symm
          subst hg; subst hg2
          rw [List.takeWhile_cons, if_pos hd]
          refine ⟨by simp, ?_⟩
          simp only [List.all_eq_true]
          intro x hx
          rcases List.mem_cons.mp hx with hx | hx
          · exact hx ▸ hd
          · exact List.mem_takeWhile_imp hx
    · rw [bhkSearch, if_neg hd] at h
      exact ih h

theorem extract_bhk_shape (t : Option Str) :
    extract_bhk t = none
      ∨ ∃ s, extract_bhk t = some s ∧ s ≠ [] ∧ s.all Char.isDigit = true := by
  match t with
  | none => exact Or.inl rfl
  | some s =>
    simp only [extract_bhk]
    by_cases h : s = []
    · simp [h]
    · rw [if_neg h]
      cases hb : bhkSearch (lowerL s) with
      | none => exact Or.inl rfl
      | some g => exact Or.inr ⟨g, rfl, (bhkSearch_shape hb).1, (bhkSearch_shape hb).2⟩

/-- C1: on every 99acres page and listing fragment, the per-listing path of
`scrape_99acres` adds no row — it either hits the budget `continue` or raises
(an `AttributeError` from the nonexistent `is_preferred_builder`, else a
`TypeError` from calling two-parameter `add_property` with one argument),
and the per-listing handler swallows the exception — so a run with only
99acres enabled always finishes with an empty result set. -/
theorem c1_99acres_adds_nothing :
    (∀ (c : Criteria) (f : Frag99) (st : List PropertyRow),
        process99Listing c f st = st)
    ∧ (∀ (c : Criteria) (pages : List (List Frag99)) (st : List PropertyRow),
        scrape_99acres c pages st = st)
    ∧ (∀ (c : Criteria) (pages : List (List Frag99)), run99acresOnly c pages = []) := by
  have h1 : ∀ (c : Criteria) (f : Frag99) (st : List PropertyRow),
      process99Listing c f st = st := by
    intro c f st
    unfold process99Listing listing99Step
    dsimp only
    split_ifs <;> rfl
  have h2 : ∀ (c : Criteria) (frags : List Frag99) (st : List PropertyRow),
      scrape99Page c st frags = st := by
    intro c frags
    induction frags with
    | nil => intro st; rfl
    | cons f fs ih =>
      intro st
      show List.foldl _ (process99Listing c f st) fs = st
      rw [h1]
      exact ih st
  have h3 : ∀ (c : Criteria) (pages : List (List Frag99)) (st : List PropertyRow),
      scrape_99acres c pages st = st := by
    intro c pages
    induction pages with
    | nil => intro st; rfl
    | cons p ps ih =>
      intro st
      show List.foldl _ (scrape99Page c st p) ps = st
      rw [h2]
      exact ih st
  refine ⟨h1, h3, ?_⟩
  intro c pages
  unfold run99acresOnly
  rw [h3]
  rfl

/-- C2 (code defect): whenever the stored results are non-empty, the export
route's first statement after the guard evaluates the unbound name `io`
(never imported), raising `NameError`; Flask turns this into a 500 and no
CSV is ever produced, so the export-then-import round trip cannot happen.
With empty or missing results the 400 guard answers instead. -/
theorem c2_export_raises_nameerror :
    (∀ (r : PropertyRow) (rs : List PropertyRow),
        export_csv (some (r :: rs)) = .raised (toL "NameError: name io is not defined"))
    ∧ export_csv (some [emptyRow]) = .raised (toL "NameError: name io is not defined")
    ∧ export_csv none = .clientError 400 (toL "No results to export")
    ∧ export_csv (some []) = .clientError 400 (toL "No results to export") :=
  ⟨fun _ _ => rfl, rfl, rfl, rfl⟩

/-- C8: validation is independent of the listing's RERA status and of the
criteria's RERA requirement — two runs of `validate_property` differing only
in those two inputs return the same boolean (the enforcing branch is
commented out in the source). -/
theorem c8_validate_rera_noninterference :
    ∀ (c : Criteria) (pd : PropertyRow) (r1 r2 : Str) (s1 s2 : Option Str),
      validate_property { c with rera_req := r1 } { pd with rera := s1 }
        = validate_property { c with rera_req := r2 } { pd with rera := s2 } := by
  intro c pd r1 r2 s1 s2
  rfl

/-- C9 counterexample: a start-run budget of 80 produces an effective
budgetMax of 8000000 currency units, not the 80000 that the claimed
thousands interpretation (80 × 1,000) would give. -/
theorem c9_budget_not_thousands :
    startBudgetMax (some 80) = 8000000 ∧ startBudgetMax (some 80) ≠ 80 * 1000 := by
  exact ⟨rfl, by decide⟩

/-- C9 amended: the start-run budget is interpreted in lakhs, i.e.
hundred-thousands of currency units: the run's effective budgetMax equals
the request's budget value multiplied by 100,000 (defaulting to 80 when the
request omits it). -/
theorem c9_budget_lakhs :
    (∀ b : ℤ, startBudgetMax (some b) = b * 100000)
    ∧ startBudgetMax none = 8000000 :=
  ⟨fun _ => rfl, rfl⟩

/-- C10: an import whose CSV parse fails returns a 500 response carrying the
error message and leaves the stored state — in particular the previously
stored results — unchanged; the stored results are replaced (with the count
and message updated) only when the parse succeeds; the missing-file and
empty-filename guards also leave the state unchanged. -/
theorem c10_import_atomic_on_error :
    (∀ (st : ScrapeStatus) (e : Str),
        import_csv_route st (.file (.error e))
          = (st, .errorResp 500 (toL "Failed to parse CSV: " ++ e)))
    ∧ (∀ (st : ScrapeStatus) (recs : List PropertyRow),
        (import_csv_route st (.file (.ok recs))).1.results = some recs
          ∧ (import_csv_route st (.file (.ok recs))).2 = .success recs.length recs)
    ∧ (∀ st : ScrapeStatus,
        import_csv_route st .missing = (st, .errorResp 400 (toL "No file uploaded")))
    ∧ (∀ st : ScrapeStatus,
        import_csv_route st .emptyName = (st, .errorResp 400 (toL "No file selected"))) :=
  ⟨fun _ _ => rfl, fun _ _ => ⟨rfl, rfl⟩, fun _ => rfl, fun _ => rfl⟩

/-- C3 counterexample: under the default criteria (bhkWanted = {"2","3"}) a
listing whose bhkCount is "Unknown" — with every other field missing, so no
other rule can fire — is rejected by `validate_property`, while the same
listing with a null bhkCount passes: the BHK rule does reject "Unknown". -/
theorem c3_unknown_bhk_rejected :
    validate_property defaultCriteria { emptyRow with bhk := some (toL "Unknown") } = false
    ∧ validate_property defaultCriteria { emptyRow with bhk := none } = true := by
  exact ⟨by decide, by decide⟩

/-- C3 amended: `validate_property` rejects exactly when one of three rules
fires, and its BHK rule fires exactly when the listing's bhkCount is a
present, non-empty string not in criteria.bhkWanted — "known digit" is not
required, so "Unknown" (or any other non-digit text) is rejected whenever it
is absent from bhkWanted. -/
theorem c3_validate_reject_characterization :
    ∀ (c : Criteria) (pd : PropertyRow),
      validate_property c pd = false ↔
        (∃ v, pd.price_numeric = some v ∧ c.budget_max ≠ 0 ∧ v ≠ 0 ∧ v > c.budget_max)
        ∨ (∃ s, pd.bhk = some s ∧ s ≠ [] ∧ s ∉ c.bedrooms)
        ∨ (c.preferred_only = true ∧ pd.preferred_builder ≠ some (toL "⭐ YES")) :=
  fun c pd => validate_false_iff c pd

/-- C5: `extract_price_numeric` is exactly the specification's `parsePrice`:
strip currency symbols and commas, take the leading numeric token, scale by
the suffix keyword — crore/cr ×10,000,000, lakh/lac ×100,000, k ×1,000, else
×1 — case-insensitively, null on empty or unparseable input; with the worked
examples "2.5 Cr" ↦ 25000000, "85 Lakh" ↦ 8500000, "" ↦ null. -/
theorem c5_parse_price_spec :
    (∀ o : Option Str, extract_price_numeric o = parsePriceSpec o)
    ∧ extract_price_numeric (some (toL "2.5 Cr")) = some 25000000
    ∧ extract_price_numeric (some (toL "85 Lakh")) = some 8500000
    ∧ extract_price_numeric (some (toL "")) = none
    ∧ extract_price_numeric none = none
    ∧ extract_price_numeric (some (toL "2.5 CR"))
        = extract_price_numeric (some (toL "2.5 cr")) := by
  refine ⟨?_, ?_, ?_, by rfl, rfl, by rfl⟩
  case refine_2 =>
    have e1 : extract_price_numeric (some (toL "2.5 Cr"))
        = some ((((2 : ℕ) : ℚ) + ((5 : ℕ) : ℚ) / 10 ^ (1 : ℕ)) * 10000000) := rfl
    rw [e1]
    norm_num
  case refine_3 =>
    have e2 : extract_price_numeric (some (toL "85 Lakh"))
        = some (((85 : ℕ) : ℚ) * 100000) := rfl
    rw [e2]
    norm_num
  intro o
  match o with
  | none => rfl
  | some s =>
    simp only [extract_price_numeric, parsePriceSpec, priceScale]
    by_cases h : s = []
    · simp [h]
    · rw [if_neg h, if_neg h]
      cases hf : firstNumToken (stripL (removeRs (removeChar '₹' (removeChar ',' (lowerL s))))) with
      | none => simp [hf]
      | some tok =>
        simp only [hf, Option.map_some']
        split_ifs <;> first
          | rfl
          | rw [mul_one]

/-- C4 counterexample: a MagicBricks card titled "Studio Apartment" passes
validation under the default criteria and is stored with a null bhkCount,
which is not one of the five enumerated values "1".."4"/"Unknown". -/
theorem c4_mb_bhk_outside_enumeration :
    mbStep defaultCriteria mbFragStudio [] = [mbRecord mbFragStudio]
    ∧ (mbRecord mbFragStudio).bhk = none
    ∧ (mbRecord mbFragStudio).bhk
        ∉ [some (toL "1"), some (toL "2"), some (toL "3"), some (toL "4"),
           some (toL "Unknown")] := by
  exact ⟨by decide, by decide, by decide⟩

/-- C4 amended: every row stored by the MagicBricks or Housing.com adapter
has a bhkCount that is either null or a non-empty digit string belonging to
criteria.bhkWanted — so not confined to the five enumerated values: null is
always possible, and any digit string in bhkWanted (e.g. "5") is too; the
99acres extraction alone is confined to the five values, but that adapter
stores no rows at all. -/
theorem c4_adapter_bhk_shape :
    (∀ (c : Criteria) (f : FragMB) (st : List PropertyRow) (r : PropertyRow),
        r ∈ mbStep c f st →
          r ∈ st ∨ r.bhk = none
            ∨ ∃ s, r.bhk = some s ∧ s ≠ [] ∧ s.all Char.isDigit = true ∧ s ∈ c.bedrooms)
    ∧ (∀ (c : Criteria) (f : FragH) (st : List PropertyRow) (r : PropertyRow),
        r ∈ housingStep c f st →
          r ∈ st ∨ r.bhk = none
            ∨ ∃ s, r.bhk = some s ∧ s ≠ [] ∧ s.all Char.isDigit = true ∧ s ∈ c.bedrooms)
    ∧ (∀ (c : Criteria) (f : Frag99) (st : List PropertyRow), process99Listing c f st = st)
    ∧ (∀ p d : Str, bhk99 p d ∈ [toL "1", toL "2", toL "3", toL "4", toL "Unknown"]) := by
  have validMem : ∀ (c : Criteria) (row : PropertyRow) (t : Option Str),
      row.bhk = extract_bhk t → validate_property c row = true →
        row.bhk = none
          ∨ ∃ s, row.bhk = some s ∧ s ≠ [] ∧ s.all Char.isDigit = true ∧ s ∈ c.bedrooms := by
    intro c row t hbhk hv
    rcases extract_bhk_shape t with hnone | ⟨s, hs, hne, hdig⟩
    · exact Or.inl (hbhk.trans hnone)
    · refine Or.inr ⟨s, hbhk.trans hs, hne, hdig, ?_⟩
      have hnotfalse : ¬ (validate_property c row = false) := by simp [hv]
      rw [validate_false_iff] at hnotfalse
      by_contra hmem
      exact hnotfalse (Or.inr (Or.inl ⟨s, hbhk.trans hs, hne, hmem⟩))
  refine ⟨?_, ?_, ?_, ?_⟩
  · intro c f st r hr
    unfold mbStep at hr
    by_cases hv : validate_property c (mbRecord f) = true
    · rw [if_pos hv] at hr
      rcases List.mem_append.mp hr with h | h
      · exact Or.inl h
      · have hrr : r = mbRecord f := by simpa using h
        subst hrr
        exact Or.inr (validMem c (mbRecord f) (some (pyStrOpt f.title)) rfl hv)
    · rw [if_neg hv] at hr
      exact Or.inl hr
  · intro c f st r hr
    unfold housingStep at hr
    by_cases hv : validate_property c (housingRecord f) = true
    · rw [if_pos hv] at hr
      rcases List.mem_append.mp hr with h | h
      · exact Or.inl h
      · have hrr : r = housingRecord f := by simpa using h
        subst hrr
        exact Or.inr (validMem c (housingRecord f) (some (pyStrOpt f.title)) rfl hv)
    · rw [if_neg hv] at hr
      exact Or.inl hr
  · intro c f st
    unfold process99Listing listing99Step
    dsimp only
    split_ifs <;> rfl
  · intro p d
    unfold bhk99
    dsimp only
    split_ifs <;> decide

/-- C6: `get_results_df` orders its output with preferred-builder rows first,
then priceNumeric ascending, and rows with a missing priceNumeric last within
their preference tier (the composite key is weakly increasing along the
output); the multi-key pandas sort is stable — rows with equal composite keys
keep their input relative order (their original positions increase along the
output); the output is a permutation of the deduplicated input; and the
spec's worked example [(false,5000000), (true,9000000), (true,3000000)]
yields [(true,3000000), (true,9000000), (false,5000000)]. -/
theorem c6_aggregate_ordering :
    (∀ l : List PropertyRow,
        (get_results_df l).Pairwise (fun a b => key3Le (sKey3 a) (sKey3 b) = true))
    ∧ (∀ l : List PropertyRow,
        (aggEnum l).Pairwise (fun p q => sKey3 p.2 = sKey3 q.2 → p.1 < q.1))
    ∧ (∀ l : List PropertyRow, (get_results_df l).Perm (dedupFirst dedupKey l))
    ∧ get_results_df [exRowNP, exRowP9, exRowP3] = [exRowP3, exRowP9, exRowNP] := by
  haveI : IsTotal (ℕ × PropertyRow) rowLe := ⟨rowLe_total⟩
  haveI : IsTrans (ℕ × PropertyRow) rowLe := ⟨fun _ _ _ => rowLe_trans⟩
  refine ⟨?_, ?_, ?_, by decide⟩
  · intro l
    by_cases hl : l.isEmpty = true
    · have hnil : l = [] := by simpa using hl
      subst hnil
      exact List.Pairwise.nil
    · unfold get_results_df
      rw [if_neg hl, List.pairwise_map]
      exact List.Pairwise.imp (fun h => key3Le_of_rowLe h)
        (List.sorted_insertionSort rowLe _)
  · intro l
    have hs : (aggEnum l).Pairwise rowLe := List.sorted_insertionSort rowLe _
    have hperm : (aggEnum l).Perm ((dedupFirst dedupKey l).enum) :=
      List.perm_insertionSort rowLe _
    have henum : ((dedupFirst dedupKey l).enum).Pairwise
        (fun p q : ℕ × PropertyRow => p.1 ≠ q.1) :=
      (pairwise_fst_lt_enumFrom 0 _).imp (fun h => Nat.ne_of_lt h)
    have hne : (aggEnum l).Pairwise (fun p q : ℕ × PropertyRow => p.1 ≠ q.1) :=
      (List.Perm.pairwise_iff (fun h => Ne.symm h) hperm).mpr henum
    refine (hs.and hne).imp ?_
    intro a b hab heq
    have h1 := hab.1
    unfold rowLe at h1
    rw [if_pos heq] at h1
    simp only [decide_eq_true_eq] at h1
    exact lt_of_le_of_ne h1 hab.2
  · intro l
    by_cases hl : l.isEmpty = true
    · have hnil : l = [] := by simpa using hl
      subst hnil
      exact List.Perm.refl _
    · unfold get_results_df
      rw [if_neg hl]
      have h1 : (aggEnum l).Perm ((dedupFirst dedupKey l).enum) :=
        List.perm_insertionSort rowLe _
      have h2 := h1.map Prod.snd
      rwa [show ((dedupFirst dedupKey l).enum).map Prod.snd = dedupFirst dedupKey l
        from List.enumFrom_map_snd 0 _] at h2

/-- C7: the aggregator deduplicates by the composite key (title, priceText),
keeping exactly the first occurrence in source-adapter run order: for every
key, the kept rows with that key are the first matching row of the input; two
rows with identical (title, priceText) but different sources collapse to the
first-seen one. -/
theorem c7_aggregate_dedup_first :
    (∀ (l : List PropertyRow) (k : Option Str × Option Str),
        (dedupFirst dedupKey l).filter (fun r => decide (dedupKey r = k))
          = (l.filter (fun r => decide (dedupKey r = k))).take 1)
    ∧ get_results_df [exDupMB, exDupH] = [exDupMB] := by
  exact ⟨fun l k => dedupFirst_filter_key dedupKey l k, by decide⟩
